import Mathlib

/-!
Verification development for the Tinkoff portfolio agent repository
(`agent_source.py`, `app.py`, `main_bot.py`).

The Python sources are shallowly embedded below.  Conventions:

* Python floats are modelled as exact rationals (`ℚ`); the properties of
  interest are stated "within floating-point tolerance", i.e. about the
  ideal real-number computation the float code performs.
* Python `None` / absent attributes are modelled with `Option`.
* `raise` / uncaught exceptions are modelled with `Except`; a request
  handler's `try/except` clauses become `match` arms on the `Except`.
* External effects (the Tinkoff SDK client, HTTP requests) are modelled by
  an explicit environment record whose fields hold the outcome each call
  would produce; handlers consume that record, and the number of network
  calls performed is tracked explicitly.
* Python `round(x, 2)` (round-half-to-even at two decimals) is modelled by
  `round2`, an exact half-even rounding on ℚ.
-/

/-- Tinkoff SDK `MoneyValue`: fixed-point pair of integer units and
integer nano-fraction. -/
structure MoneyValue where
  units : Int
  nano : Int
  deriving DecidableEq, Repr

/-- Tinkoff SDK `Quotation` as used for `position.quantity`; only the
`units` field is read by the code (`getattr(p.quantity, "units", 0)`). -/
structure Quantity where
  units : Int
  deriving DecidableEq, Repr

/-- A portfolio position as read by `portfolio_to_dataframe`: the code
accesses `figi`, `ticker`, `name`, `instrument_type` via `getattr` with a
`None` default, `quantity` via `getattr(p, "quantity", None)`, and
`current_price` / `expected_yield` via `getattr` with a zero `MoneyValue`
default.  `Option` marks the attributes that may be absent. -/
structure Position where
  figi : Option String
  ticker : Option String
  name : Option String
  instrument_type : Option String
  quantity : Option Quantity
  current_price : Option MoneyValue
  expected_yield : Option MoneyValue
  deriving DecidableEq, Repr

/-- `money_to_float` (agent_source.py:53-58): converts a `MoneyValue` to a
decimal number, `float(m.units) + float(m.nano) / 1_000_000_000`.  The
`except` clause returns `0.0` when the input is absent (`m.units` on `None`
raises `AttributeError`). -/
def money_to_float (m : Option MoneyValue) : ℚ :=
  match m with
  | none => 0
  | some v => (v.units : ℚ) + (v.nano : ℚ) / 1000000000

/-- Exact round-half-to-even to an integer, the idealised behaviour of
Python's `round` builtin. -/
def round_half_even (y : ℚ) : ℤ :=
  let f := ⌊y⌋
  let r := y - (f : ℚ)
  if r < 1/2 then f
  else if 1/2 < r then f + 1
  else if f % 2 = 0 then f else f + 1

/-- Python `round(x, 2)`: round-half-to-even at two decimal places. -/
def round2 (x : ℚ) : ℚ := (round_half_even (x * 100) : ℚ) / 100

/-- The zero-quantity skip test of the position loop
(agent_source.py:71-72): `getattr(p, "quantity", None) is None or
getattr(p.quantity, "units", 0) == 0`. -/
def skip_position (p : Position) : Bool :=
  match p.quantity with
  | none => true
  | some q => q.units == 0

/-- One row of the DataFrame built by `portfolio_to_dataframe`
(agent_source.py:81-91). -/
structure Row where
  figi : Option String
  ticker : Option String
  name : Option String
  instrument_type : Option String
  quantity : Int
  price_rub : ℚ
  position_value_rub : ℚ
  expected_yield_rub : ℚ
  expected_yield_pct : ℚ
  deriving DecidableEq, Repr

/-- The `current_price` value the loop body computes (agent_source.py:74):
`money_to_float(getattr(p, "current_price", MoneyValue(units=0, nano=0)))`. -/
def position_price (p : Position) : ℚ :=
  money_to_float (some (p.current_price.getD ⟨0, 0⟩))

/-- The `expected_yield_val` value the loop body computes
(agent_source.py:75). -/
def position_expected_yield (p : Position) : ℚ :=
  money_to_float (some (p.expected_yield.getD ⟨0, 0⟩))

/-- The `qty` value the loop body computes (agent_source.py:76):
`getattr(p.quantity, "units", 0)`. -/
def position_qty (p : Position) : Int :=
  (p.quantity.map Quantity.units).getD 0

/-- `total_pos_value` (agent_source.py:78):
`current_price * qty if current_price and qty else 0.0` — Python truthiness
of a number is "nonzero". -/
def position_value (p : Position) : ℚ :=
  if position_price p ≠ 0 ∧ position_qty p ≠ 0 then
    position_price p * (position_qty p : ℚ)
  else 0

/-- `yield_pct` (agent_source.py:79):
`(expected_yield_val / total_pos_value * 100) if total_pos_value else 0.0`. -/
def position_yield_pct (p : Position) : ℚ :=
  if position_value p ≠ 0 then
    position_expected_yield p / position_value p * 100
  else 0

/-- The dictionary appended to `rows` for one non-skipped position
(agent_source.py:74-91). -/
def convert_position (p : Position) : Row :=
  { figi := p.figi
    ticker := p.ticker
    name := p.name
    instrument_type := p.instrument_type
    quantity := position_qty p
    price_rub := round2 (position_price p)
    position_value_rub := round2 (position_value p)
    expected_yield_rub := round2 (position_expected_yield p)
    expected_yield_pct := round2 (position_yield_pct p) }

/-- An element of `portfolio.positions` as seen by the conversion loop:
either a position whose attribute reads succeed, or one whose conversion
raises an exception somewhere in the loop body (modelling the event the
`try/except` of agent_source.py:65-93 guards against). -/
inductive PosItem where
  | ok (p : Position)
  | raises
  deriving DecidableEq, Repr

/-- Tinkoff SDK `PortfolioResponse` as read by `portfolio_to_dataframe`:
the portfolio-level aggregate and the position list. -/
structure PortfolioResponse where
  total_amount_portfolio : Option MoneyValue
  positions : List PosItem
  deriving DecidableEq, Repr

/-- The `for p in portfolio.positions` loop (agent_source.py:69-91): skips
zero/absent-quantity positions, appends the converted row otherwise, and
stops at the first position whose conversion raises — the surrounding
`except` keeps the rows accumulated so far. -/
def loop_rows : List PosItem → List Row
  | [] => []
  | PosItem.raises :: _ => []
  | PosItem.ok p :: rest =>
    if skip_position p then loop_rows rest
    else convert_position p :: loop_rows rest

/-- The DataFrame produced by `portfolio_to_dataframe`: the row list plus
the `total_value_rub` attribute stored in `df.attrs`
(agent_source.py:95-97). -/
structure DataFrame where
  rows : List Row
  total_value_rub : Option ℚ
  deriving DecidableEq, Repr

/-- `portfolio_to_dataframe` (agent_source.py:61-98): computes the total
from `total_amount_portfolio` when that attribute is present and truthy
(a non-`None` SDK object is always truthy), runs the position loop, and
returns the DataFrame; `df.attrs["total_value_rub"]` is the rounded total
or `None`. -/
def portfolio_to_dataframe (portfolio : PortfolioResponse) : DataFrame :=
  let total_value : Option ℚ :=
    match portfolio.total_amount_portfolio with
    | none => none
    | some m => some (money_to_float (some m))
  { rows := loop_rows portfolio.positions
    total_value_rub := total_value.map round2 }

/-! ## The data-source fetch and its HTTP routes (`agent_source.py`) -/

/-- The error classes distinguished by the `except` clauses of
`fetch_tinkoff_portfolio` and `portfolio_json`: `RuntimeError` (missing
token), the SDK's `RequestError`, and any other `Exception`. -/
inductive FetchError where
  | configError (msg : String)
  | requestError (msg : String)
  | internalError (msg : String)
  deriving DecidableEq, Repr

/-- `str(e)` for a caught fetch exception. -/
def fetch_error_msg : FetchError → String
  | FetchError.configError msg => msg
  | FetchError.requestError msg => msg
  | FetchError.internalError msg => msg

/-- A Tinkoff account as used by the code (only `.id` is read). -/
structure Account where
  id : String
  deriving DecidableEq, Repr

/-- What a network call to Tinkoff may raise: the SDK's `RequestError` or
any other exception. -/
inductive UpstreamError where
  | requestError (msg : String)
  | internalError (msg : String)
  deriving DecidableEq, Repr

def liftUpstreamError : UpstreamError → FetchError
  | UpstreamError.requestError msg => FetchError.requestError msg
  | UpstreamError.internalError msg => FetchError.internalError msg

/-- The external Tinkoff API, modelled as the outcome each network call
would produce: `client.users.get_accounts()` and
`client.operations.get_portfolio(account_id=...)`. -/
structure Upstream where
  get_accounts : Except UpstreamError (List Account)
  get_portfolio : String → Except UpstreamError PortfolioResponse

/-- `TINKOFF_API_TOKEN` presence test (`if not TINKOFF_API_TOKEN`): the
token is falsy when unset or empty. -/
def token_present (token : Option String) : Bool :=
  match token with
  | none => false
  | some s => !(s == "")

/-- Result of `fetch_tinkoff_portfolio`: the returned DataFrame or the
exception it raises, together with how many network calls to the Tinkoff
API were performed. -/
structure FetchOutcome where
  result : Except FetchError DataFrame
  network_calls : Nat
  deriving Repr

/-- `fetch_tinkoff_portfolio` (agent_source.py:101-126): raises
`RuntimeError` when the token is absent (before opening any client);
otherwise lists accounts, returns an empty DataFrame when there are none,
else fetches the first account's portfolio and converts it.  `RequestError`
and unexpected exceptions from the network calls are logged and re-raised. -/
def fetch_tinkoff_portfolio (token : Option String) (u : Upstream) : FetchOutcome :=
  if token_present token = false then
    { result := Except.error (FetchError.configError "TINKOFF_API_TOKEN не задан")
      network_calls := 0 }
  else
    match u.get_accounts with
    | Except.error e => { result := Except.error (liftUpstreamError e), network_calls := 1 }
    | Except.ok accounts =>
      match accounts with
      | [] => { result := Except.ok { rows := [], total_value_rub := none }, network_calls := 1 }
      | a :: _ =>
        match u.get_portfolio a.id with
        | Except.error e => { result := Except.error (liftUpstreamError e), network_calls := 2 }
        | Except.ok portfolio =>
          { result := Except.ok (portfolio_to_dataframe portfolio), network_calls := 2 }

/-- A JSON value, for the bodies built with `jsonify`. -/
inductive Json where
  | null
  | num (q : ℚ)
  | int (n : Int)
  | str (s : String)
  | arr (elems : List Json)
  | obj (fields : List (String × Json))

def optStr : Option String → Json
  | none => Json.null
  | some s => Json.str s

/-- The column names of the row dictionary (agent_source.py:81-91), in
insertion order; these are both the JSON record keys and the CSV columns. -/
def row_field_names : List String :=
  ["figi", "ticker", "name", "instrument_type", "quantity",
   "price_rub", "position_value_rub", "expected_yield_rub", "expected_yield_pct"]

/-- One element of `df.to_dict(orient="records")`. -/
def row_record (r : Row) : List (String × Json) :=
  [("figi", optStr r.figi),
   ("ticker", optStr r.ticker),
   ("name", optStr r.name),
   ("instrument_type", optStr r.instrument_type),
   ("quantity", Json.int r.quantity),
   ("price_rub", Json.num r.price_rub),
   ("position_value_rub", Json.num r.position_value_rub),
   ("expected_yield_rub", Json.num r.expected_yield_rub),
   ("expected_yield_pct", Json.num r.expected_yield_pct)]

def row_to_record (r : Row) : Json := Json.obj (row_record r)

/-- `df.attrs.get("total_value_rub", None)` serialized by `jsonify`. -/
def json_total : Option ℚ → Json
  | none => Json.null
  | some q => Json.num q

/-- An HTTP response from the data-source service: a `jsonify` body or a
`Response(..., mimetype="text/csv")` body, with its status code. -/
inductive RouteResponse where
  | json (body : Json) (status : Nat)
  | csv (body : String) (mimetype : String) (status : Nat)

/-- The `/portfolio` route `portfolio_json` (agent_source.py:133-153):
serializes the fetched DataFrame with HTTP 200, maps `RuntimeError` to 500
with its message, `RequestError` to 502 with a fixed error plus details,
and any other exception to 500 `Internal Server Error` plus details. -/
def portfolio_json (token : Option String) (u : Upstream) : RouteResponse :=
  match (fetch_tinkoff_portfolio token u).result with
  | Except.ok df =>
    RouteResponse.json (Json.obj
      [("total_value_rub", json_total df.total_value_rub),
       ("positions", Json.arr (df.rows.map row_to_record))]) 200
  | Except.error (FetchError.configError msg) =>
    RouteResponse.json (Json.obj [("error", Json.str msg)]) 500
  | Except.error (FetchError.requestError msg) =>
    RouteResponse.json (Json.obj
      [("error", Json.str "Ошибка связи с Tinkoff API"),
       ("details", Json.str msg)]) 502
  | Except.error (FetchError.internalError msg) =>
    RouteResponse.json (Json.obj
      [("error", Json.str "Internal Server Error"),
       ("details", Json.str msg)]) 500

/-- CSV cell for an optional string column (pandas leaves missing values
empty). -/
def csv_cell_opt (s : Option String) : String := s.getD ""

/-- CSV cell for a numeric column.  The claims below are about the row and
column structure of the CSV, so the exact numeral formatting of pandas is
abstracted by the canonical rational rendering. -/
def csv_cell_num (q : ℚ) : String := toString q

/-- The header line `df.to_csv(index=False)` emits. -/
def csv_header : String := String.intercalate "," row_field_names

/-- One data line of `df.to_csv(index=False)`. -/
def row_to_csv_line (r : Row) : String :=
  String.intercalate ","
    [csv_cell_opt r.figi, csv_cell_opt r.ticker, csv_cell_opt r.name,
     csv_cell_opt r.instrument_type, toString r.quantity,
     csv_cell_num r.price_rub, csv_cell_num r.position_value_rub,
     csv_cell_num r.expected_yield_rub, csv_cell_num r.expected_yield_pct]

/-- Newline-terminated text built from a list of CSV lines. -/
def csv_of_lines (lines : List String) : String :=
  String.intercalate "\n" lines ++ "\n"

/-- `df.to_csv(index=False)`: header row, then one row per position. -/
def df_to_csv (df : DataFrame) : String :=
  csv_of_lines (csv_header :: df.rows.map row_to_csv_line)

/-- The `/portfolio/csv` route `portfolio_csv` (agent_source.py:156-169):
an empty DataFrame yields the fixed `position_count` CSV, a non-empty one
yields `df.to_csv(index=False)`, both as `text/csv` with HTTP 200; every
exception is caught and mapped to 500 `Internal Server Error` plus
details. -/
def portfolio_csv (token : Option String) (u : Upstream) : RouteResponse :=
  match (fetch_tinkoff_portfolio token u).result with
  | Except.ok df =>
    if df.rows.isEmpty then
      RouteResponse.csv "position_count\n0\n" "text/csv" 200
    else
      RouteResponse.csv (df_to_csv df) "text/csv" 200
  | Except.error e =>
    RouteResponse.json (Json.obj
      [("error", Json.str "Internal Server Error"),
       ("details", Json.str (fetch_error_msg e))]) 500


/-! ## The chat-bot services (`app.py`, `main_bot.py`) -/

/-- The outcome the `requests.post` call to OpenRouter would produce:
a parsed completion, an `HTTPError` (with the response status if a
response object is attached), or any other exception. -/
inductive OpenRouterOutcome where
  | success (content : String)
  | httpError (status : Option Nat)
  | otherError (msg : String)

/-- `get_openrouter_response` (app.py:36-61 and main_bot.py:52-77,
identical): returns the trimmed completion on success, a status-bearing
warning on `HTTPError`, and a generic warning carrying the exception text
otherwise. -/
def get_openrouter_response (o : OpenRouterOutcome) : String :=
  match o with
  | OpenRouterOutcome.success content => content.trim
  | OpenRouterOutcome.httpError (some status) =>
    "⚠️ Ошибка OpenRouter (Код " ++ toString status ++ ")."
  | OpenRouterOutcome.httpError none => "⚠️ Ошибка OpenRouter (Код ?)."
  | OpenRouterOutcome.otherError msg =>
    "⚠️ Ошибка при обращении к OpenRouter: " ++ msg

/-- The outcome the HTTP GET to the agent-source service would produce
(main_bot.py:39-42): a JSON body whose optional `report` field is given,
a `requests.exceptions.RequestException`, or any other exception. -/
inductive AgentHttpOutcome where
  | ok (report : Option String)
  | requestException (msg : String)
  | otherException (msg : String)

/-- `get_portfolio_from_agent` (main_bot.py:34-48): returns the `report`
field of the agent's JSON (with a fixed fallback when absent), a fixed
"could not reach agent" message on `RequestException`, and a generic
warning carrying the exception text otherwise. -/
def get_portfolio_from_agent (agentSourceUrl : String) (o : AgentHttpOutcome) : String :=
  match o with
  | AgentHttpOutcome.ok (some report) => report
  | AgentHttpOutcome.ok none => "⚠️ Ошибка: Агент не вернул отчет."
  | AgentHttpOutcome.requestException _ =>
    "⚠️ Ошибка: Не удалось связаться с Агентом по адресу " ++ agentSourceUrl
      ++ ". Проверьте, запущен ли агент."
  | AgentHttpOutcome.otherException msg =>
    "⚠️ Неизвестная ошибка при запросе к Агенту: " ++ msg

/-- Modelled from the spec: the chat-variant report renderer of §4.3 —
"a header line with total value, followed by a monospace table (or a plain
'portfolio is empty' message when there are no positions)".  The rendering
function itself is not part of the sources at hand (the present
`agent_source.py` revision stops at JSON/CSV), so only its spec-level shape
is fixed: empty-portfolio message, else a total header plus one table line
per position. -/
def render_report (df : DataFrame) : String :=
  if df.rows.isEmpty then "Портфель пуст"
  else
    "Общая стоимость: "
      ++ (match df.total_value_rub with
          | none => "-"
          | some q => toString q)
      ++ "\n"
      ++ String.intercalate "\n" (df.rows.map row_to_csv_line)

/-- Modelled from the spec: the short user-facing diagnostic of §4.4/§7 for
the chat variant — "on any error reply with a short diagnostic string":
a configuration message for the missing token, a user-safe warning for an
upstream `RequestError`, a generic message otherwise. -/
def short_diagnostic : FetchError → String
  | FetchError.configError msg => "⚠️ Ошибка конфигурации: " ++ msg
  | FetchError.requestError _ => "⚠️ Ошибка связи с Tinkoff API"
  | FetchError.internalError _ => "⚠️ Внутренняя ошибка при получении портфеля"

/-- Modelled from the spec: `get_tinkoff_portfolio`, the in-process report
function `app.py` imports (`from agent_source import get_tinkoff_portfolio`,
app.py:13) but which is absent from the `agent_source.py` revision at hand
(that revision defines `fetch_tinkoff_portfolio` and the HTTP routes).
Per §4.3-§4.4 it performs the data-source fetch and renders the text
report, and on any error returns a short diagnostic string instead of
raising. -/
def get_tinkoff_portfolio (token : Option String) (u : Upstream) : String :=
  match (fetch_tinkoff_portfolio token u).result with
  | Except.ok df => render_report df
  | Except.error e => short_diagnostic e

/-- `cmd_portfolio` (app.py:69-75): the `/portfolio` command handler calls
`get_tinkoff_portfolio()` and replies with the report; the value is the
text passed to `bot.reply_to`. -/
def cmd_portfolio (token : Option String) (u : Upstream) : String :=
  get_tinkoff_portfolio token u

/-- The fixed `/start`, `/help` reply of `cmd_start` (app.py:65-67). -/
def cmd_start_reply : String :=
  "Привет. Я бот-агент. Используй команду /portfolio для просмотра твоих инвестиций."

/-- One Telegram update as consumed by the handlers: the message text. -/
structure Update where
  text : String

/-- The body of a POST to the webhook route: either it decodes and parses
into one update, or `Update.de_json` / `.decode("utf-8")` raises on it. -/
inductive WebhookBody where
  | valid (u : Update)
  | invalid

/-- The environment of the in-process bot (`app.py`): the brokerage token,
the Tinkoff API outcomes, and the OpenRouter outcome per prompt. -/
structure BotEnv where
  token : Option String
  upstream : Upstream
  openrouter : String → OpenRouterOutcome

/-- telebot's command matching: the first word of the message text is the
slash-command. -/
def is_cmd (text : String) (cmd : String) : Bool :=
  (text.splitOn " ").headD "" == "/" ++ cmd

/-- `bot.process_new_updates` dispatch for `app.py`: `/start` and `/help`
go to `cmd_start`, `/portfolio` to `cmd_portfolio`, anything else to
`handle_message` (the OpenRouter relay); the value is the reply text sent. -/
def dispatch_update (env : BotEnv) (u : Update) : String :=
  if is_cmd u.text "start" || is_cmd u.text "help" then cmd_start_reply
  else if is_cmd u.text "portfolio" then cmd_portfolio env.token env.upstream
  else get_openrouter_response (env.openrouter u.text)

/-- The webhook handler's outcome: the reply it sent and the HTTP body and
status it returns. -/
structure WebhookResult where
  reply : String
  body : String
  status : Nat

/-- `telegram_webhook` (app.py:104-108, main_bot.py:124-128): decodes the
request body, parses it with `Update.de_json`, dispatches it, and returns
`("", 200)`.  There is no `try/except`: a body that fails to decode or
parse raises out of the handler. -/
def telegram_webhook (env : BotEnv) (b : WebhookBody) : Except String WebhookResult :=
  match b with
  | WebhookBody.invalid =>
    Except.error "Update.de_json: request body is not a valid update"
  | WebhookBody.valid u =>
    Except.ok { reply := dispatch_update env u, body := "", status := 200 }

/-- Flask maps an exception escaping a view function to a 500 response. -/
def flask_status : Except String WebhookResult → Nat
  | Except.ok r => r.status
  | Except.error _ => 500

/-! ## Helper lemmas -/

theorem round2_zero : round2 0 = 0 := by
  norm_num [round2, round_half_even]

theorem position_value_eq_mul (p : Position) :
    position_value p = position_price p * (position_qty p : ℚ) := by
  unfold position_value
  split
  · rfl
  · rename_i h
    rcases not_and_or.mp h with h1 | h2
    · rw [not_ne_iff.mp h1, zero_mul]
    · rw [not_ne_iff.mp h2]
      simp

theorem qty_ne_zero_of_not_skip {p : Position} (h : skip_position p = false) :
    position_qty p ≠ 0 := by
  unfold skip_position at h
  unfold position_qty
  cases hq : p.quantity with
  | none => rw [hq] at h; cases h
  | some q => rw [hq] at h; simpa using h

theorem mem_loop_rows {items : List PosItem} {r : Row} (hr : r ∈ loop_rows items) :
    ∃ p, PosItem.ok p ∈ items ∧ skip_position p = false ∧ r = convert_position p := by
  induction items with
  | nil => cases hr
  | cons i rest ih =>
    cases i with
    | raises => cases hr
    | ok p =>
      cases hs : skip_position p with
      | true =>
        rw [loop_rows, if_pos hs] at hr
        obtain ⟨q, hq, hsq, hrq⟩ := ih hr
        exact ⟨q, List.mem_cons_of_mem _ hq, hsq, hrq⟩
      | false =>
        rw [loop_rows, if_neg (by simp [hs])] at hr
        cases hr with
        | head => exact ⟨p, List.mem_cons_self _ _, hs, rfl⟩
        | tail _ h =>
          obtain ⟨q, hq, hsq, hrq⟩ := ih h
          exact ⟨q, List.mem_cons_of_mem _ hq, hsq, hrq⟩

/-- The row an item of the position list contributes when the loop reaches
it without an exception. -/
def good_row : PosItem → Option Row
  | PosItem.ok p => if skip_position p then none else some (convert_position p)
  | PosItem.raises => none

theorem loop_rows_eq_filterMap {items : List PosItem}
    (h : PosItem.raises ∉ items) :
    loop_rows items = items.filterMap good_row := by
  induction items with
  | nil => rfl
  | cons i rest ih =>
    cases i with
    | raises => exact absurd (List.mem_cons_self _ _) h
    | ok p =>
      have h' : PosItem.raises ∉ rest := fun hm => h (List.mem_cons_of_mem _ hm)
      cases hs : skip_position p with
      | true =>
        rw [loop_rows, if_pos hs, ih h', List.filterMap_cons]
        simp [good_row, hs]
      | false =>
        rw [loop_rows, if_neg (by simp [hs]), ih h', List.filterMap_cons]
        simp [good_row, hs]

theorem loop_rows_stops_at_raises (pre post : List PosItem)
    (hpre : PosItem.raises ∉ pre) :
    loop_rows (pre ++ PosItem.raises :: post) = pre.filterMap good_row := by
  induction pre with
  | nil => rfl
  | cons i rest ih =>
    cases i with
    | raises => exact absurd (List.mem_cons_self _ _) hpre
    | ok p =>
      have h' : PosItem.raises ∉ rest := fun hm => hpre (List.mem_cons_of_mem _ hm)
      cases hs : skip_position p with
      | true =>
        rw [List.cons_append, loop_rows, if_pos hs, ih h', List.filterMap_cons]
        simp [good_row, hs]
      | false =>
        rw [List.cons_append, loop_rows, if_neg (by simp [hs]), ih h', List.filterMap_cons]
        simp [good_row, hs]

/-! ## Claims -/

/-- C1: for every fixed-point money value, `money_to_float` returns
`units + nano / 1_000_000_000` exactly (the float computation idealised
over ℚ), including negative units with matching-sign nano, and a
missing/absent input converts to 0. -/
theorem money_to_float_exact (units nano : Int) :
    money_to_float (some ⟨units, nano⟩) = (units : ℚ) + (nano : ℚ) / 1000000000
    ∧ money_to_float none = 0 :=
  ⟨rfl, rfl⟩

/-- C2: for every position processed by `portfolio_to_dataframe`, the
yield percentage stored in the row is expected yield divided by the
position value (price × quantity) times 100 when that value is non-zero,
and 0 when it is zero, whatever the expected yield; the division is
guarded by the zero test, so no division-by-zero error arises. -/
theorem yield_pct_of_position (p : Position) :
    (convert_position p).expected_yield_pct =
      if position_price p * (position_qty p : ℚ) = 0 then 0
      else round2 (position_expected_yield p
        / (position_price p * (position_qty p : ℚ)) * 100) := by
  have h := position_value_eq_mul p
  show round2 (position_yield_pct p) = _
  unfold position_yield_pct
  by_cases hM : position_price p * (position_qty p : ℚ) = 0
  · rw [if_neg (by rw [h]; exact not_not_intro hM), if_pos hM]
    exact round2_zero
  · rw [if_pos (by rw [h]; exact hM), if_neg hM, h]

/-- C3: every row of the DataFrame produced by `portfolio_to_dataframe`
comes from a position that is present and not skipped — in particular its
quantity is non-zero — so positions with absent or zero quantity never
appear in the output position sequence (and hence in none of the renderings
of that sequence). -/
theorem zero_quantity_excluded (portfolio : PortfolioResponse) (r : Row)
    (hr : r ∈ (portfolio_to_dataframe portfolio).rows) :
    (∃ p, PosItem.ok p ∈ portfolio.positions ∧ skip_position p = false
        ∧ r = convert_position p)
    ∧ r.quantity ≠ 0 := by
  have hr' : r ∈ loop_rows portfolio.positions := hr
  obtain ⟨p, hp, hs, hrp⟩ := mem_loop_rows hr'
  refine ⟨⟨p, hp, hs, hrp⟩, ?_⟩
  rw [hrp]
  exact qty_ne_zero_of_not_skip hs

/-- Witness for C3: a concrete portfolio holding one zero-quantity position
and one position of quantity 10; the single output row comes from the
latter and has non-zero quantity. -/
theorem zero_quantity_excluded_witness :
    (∃ p, PosItem.ok p ∈
          ([PosItem.ok ⟨none, none, none, none, some ⟨0⟩, none, none⟩,
            PosItem.ok ⟨some "BBG1", none, none, none, some ⟨10⟩,
              some ⟨100, 500000000⟩, some ⟨50, 0⟩⟩] : List PosItem)
        ∧ skip_position p = false
        ∧ convert_position ⟨some "BBG1", none, none, none, some ⟨10⟩,
            some ⟨100, 500000000⟩, some ⟨50, 0⟩⟩ = convert_position p)
    ∧ (convert_position ⟨some "BBG1", none, none, none, some ⟨10⟩,
        some ⟨100, 500000000⟩, some ⟨50, 0⟩⟩).quantity ≠ 0 :=
  zero_quantity_excluded
    ⟨none,
     [PosItem.ok ⟨none, none, none, none, some ⟨0⟩, none, none⟩,
      PosItem.ok ⟨some "BBG1", none, none, none, some ⟨10⟩,
        some ⟨100, 500000000⟩, some ⟨50, 0⟩⟩]⟩
    _ (List.Mem.head _)

/-- C5: when the brokerage token is absent, the fetch raises the fixed
configuration `RuntimeError` before performing any network call, and the
`/portfolio` route maps it to HTTP 500 with the fixed message. -/
theorem missing_token_fails_fast (token : Option String) (u : Upstream)
    (htok : token_present token = false) :
    fetch_tinkoff_portfolio token u =
      { result := Except.error (FetchError.configError "TINKOFF_API_TOKEN не задан")
        network_calls := 0 }
    ∧ portfolio_json token u =
        RouteResponse.json
          (Json.obj [("error", Json.str "TINKOFF_API_TOKEN не задан")]) 500 := by
  constructor
  · simp only [fetch_tinkoff_portfolio, htok, if_pos]
  · simp only [portfolio_json, fetch_tinkoff_portfolio, htok, if_pos]

/-- Witness for C5: a concrete run with no token against an upstream that
would answer, showing the 500 response and zero network calls. -/
theorem missing_token_fails_fast_witness :
    fetch_tinkoff_portfolio none
        { get_accounts := Except.ok [⟨"acc-1"⟩],
          get_portfolio := fun _ => Except.ok ⟨none, []⟩ } =
      { result := Except.error (FetchError.configError "TINKOFF_API_TOKEN не задан")
        network_calls := 0 }
    ∧ portfolio_json none
        { get_accounts := Except.ok [⟨"acc-1"⟩],
          get_portfolio := fun _ => Except.ok ⟨none, []⟩ } =
        RouteResponse.json
          (Json.obj [("error", Json.str "TINKOFF_API_TOKEN не задан")]) 500 :=
  missing_token_fails_fast none _ rfl

/-- C7: when the upstream account list is empty, the `/portfolio` route
returns the empty-portfolio JSON body (null total, empty positions) with
HTTP 200. -/
theorem empty_accounts_ok (token : Option String) (u : Upstream)
    (htok : token_present token = true) (hacc : u.get_accounts = Except.ok []) :
    portfolio_json token u =
      RouteResponse.json (Json.obj
        [("total_value_rub", Json.null), ("positions", Json.arr [])]) 200 := by
  simp only [portfolio_json, fetch_tinkoff_portfolio, htok, hacc]
  rfl

/-- Witness for C7: a concrete run with a token and an empty upstream
account list. -/
theorem empty_accounts_ok_witness :
    portfolio_json (some "token")
        { get_accounts := Except.ok [],
          get_portfolio := fun _ => Except.ok ⟨none, []⟩ } =
      RouteResponse.json (Json.obj
        [("total_value_rub", Json.null), ("positions", Json.arr [])]) 200 :=
  empty_accounts_ok (some "token") _ rfl rfl

/-- C9: when the fetch succeeds, the `/portfolio/csv` route answers
HTTP 200 with content type `text/csv`; an empty portfolio yields the fixed
CSV whose header line is `position_count` and whose single value line is
`0`, and a non-empty portfolio yields a CSV whose header row lists exactly
the fields of the JSON position records, followed by one line per
position. -/
theorem csv_route_shape (token : Option String) (u : Upstream) (df : DataFrame)
    (hdf : (fetch_tinkoff_portfolio token u).result = Except.ok df) :
    (df.rows = [] →
        portfolio_csv token u = RouteResponse.csv "position_count\n0\n" "text/csv" 200
        ∧ "position_count\n0\n" = csv_of_lines ["position_count", "0"])
    ∧ (df.rows ≠ [] →
        portfolio_csv token u = RouteResponse.csv (df_to_csv df) "text/csv" 200
        ∧ df_to_csv df = csv_of_lines (csv_header :: df.rows.map row_to_csv_line)
        ∧ (csv_header :: df.rows.map row_to_csv_line).length = df.rows.length + 1
        ∧ csv_header = String.intercalate "," row_field_names
        ∧ ∀ r : Row, (row_record r).map Prod.fst = row_field_names) := by
  constructor
  · intro hempty
    refine ⟨?_, rfl⟩
    simp only [portfolio_csv, hdf]
    rw [if_pos (by rw [hempty]; rfl)]
  · intro hne
    refine ⟨?_, rfl, by simp, rfl, fun r => rfl⟩
    simp only [portfolio_csv, hdf]
    rw [if_neg (fun h => hne (List.isEmpty_iff.mp h))]

/-- Witness for C9: a concrete empty-portfolio run producing the fixed
`position_count` CSV with status 200. -/
theorem csv_route_shape_witness :
    portfolio_csv (some "token")
        { get_accounts := Except.ok [],
          get_portfolio := fun _ => Except.ok ⟨none, []⟩ } =
      RouteResponse.csv "position_count\n0\n" "text/csv" 200
    ∧ "position_count\n0\n" = csv_of_lines ["position_count", "0"] :=
  (csv_route_shape (some "token")
    { get_accounts := Except.ok [],
      get_portfolio := fun _ => Except.ok ⟨none, []⟩ } ⟨[], none⟩ rfl).1 rfl

/-- C10: when converting one position raises, the `try/except` of
`portfolio_to_dataframe` keeps only the rows converted before the failure,
and the `/portfolio` route serves those truncated rows with HTTP 200
instead of an error status. -/
theorem conversion_error_truncates (total : Option MoneyValue)
    (pre post : List PosItem) (hpre : PosItem.raises ∉ pre)
    (token : Option String) (u : Upstream) (a : Account)
    (htok : token_present token = true)
    (hacc : u.get_accounts = Except.ok [a])
    (hpf : u.get_portfolio a.id = Except.ok ⟨total, pre ++ PosItem.raises :: post⟩) :
    (portfolio_to_dataframe ⟨total, pre ++ PosItem.raises :: post⟩).rows
        = pre.filterMap good_row
    ∧ portfolio_json token u =
        RouteResponse.json (Json.obj
          [("total_value_rub",
            json_total (portfolio_to_dataframe
              ⟨total, pre ++ PosItem.raises :: post⟩).total_value_rub),
           ("positions",
            Json.arr ((pre.filterMap good_row).map row_to_record))]) 200 := by
  have hrows : (portfolio_to_dataframe
      ⟨total, pre ++ PosItem.raises :: post⟩).rows = pre.filterMap good_row :=
    loop_rows_stops_at_raises pre post hpre
  refine ⟨hrows, ?_⟩
  simp only [portfolio_json, fetch_tinkoff_portfolio, htok, hacc, hpf]
  rw [← hrows]
  rfl

/-- Witness for C10: a portfolio whose second position raises during
conversion; the route answers 200 with just the first position's row. -/
theorem conversion_error_truncates_witness :
    (portfolio_to_dataframe
        ⟨none, [PosItem.ok ⟨some "BBG2", none, none, none, some ⟨10⟩,
            some ⟨100, 500000000⟩, some ⟨50, 0⟩⟩] ++ PosItem.raises :: []⟩).rows
        = [PosItem.ok ⟨some "BBG2", none, none, none, some ⟨10⟩,
            some ⟨100, 500000000⟩, some ⟨50, 0⟩⟩].filterMap good_row
    ∧ portfolio_json (some "token")
        { get_accounts := Except.ok [⟨"acc-1"⟩],
          get_portfolio := fun _ => Except.ok
            ⟨none, [PosItem.ok ⟨some "BBG2", none, none, none, some ⟨10⟩,
                some ⟨100, 500000000⟩, some ⟨50, 0⟩⟩, PosItem.raises]⟩ } =
        RouteResponse.json (Json.obj
          [("total_value_rub",
            json_total (portfolio_to_dataframe
              ⟨none, [PosItem.ok ⟨some "BBG2", none, none, none, some ⟨10⟩,
                  some ⟨100, 500000000⟩, some ⟨50, 0⟩⟩]
                ++ PosItem.raises :: []⟩).total_value_rub),
           ("positions",
            Json.arr (([PosItem.ok ⟨some "BBG2", none, none, none, some ⟨10⟩,
                some ⟨100, 500000000⟩, some ⟨50, 0⟩⟩].filterMap good_row).map
              row_to_record))]) 200 :=
  conversion_error_truncates none
    [PosItem.ok ⟨some "BBG2", none, none, none, some ⟨10⟩,
      some ⟨100, 500000000⟩, some ⟨50, 0⟩⟩] [] (by decide)
    (some "token")
    { get_accounts := Except.ok [⟨"acc-1"⟩],
      get_portfolio := fun _ => Except.ok
        ⟨none, [PosItem.ok ⟨some "BBG2", none, none, none, some ⟨10⟩,
            some ⟨100, 500000000⟩, some ⟨50, 0⟩⟩, PosItem.raises]⟩ }
    ⟨"acc-1"⟩ rfl rfl rfl

/-- The `details` field, if any, of a JSON response body — the channel
through which the handlers expose the caught exception's text. -/
def json_details : Json → Option Json
  | Json.obj fields => (fields.find? (fun kv => kv.1 == "details")).map Prod.snd
  | _ => none

def response_details : RouteResponse → Option Json
  | RouteResponse.json body _ => json_details body
  | RouteResponse.csv _ _ _ => none

/-- Counterexample to C6: an unanticipated internal error whose exception
text is `"Traceback: secret internals"` reaches the `/portfolio` caller
verbatim in the `details` field of the 500 response — the catch-all
handler does leak internal exception details. -/
theorem internal_error_leaks_details :
    response_details (portfolio_json (some "token")
      { get_accounts :=
          Except.error (UpstreamError.internalError "Traceback: secret internals"),
        get_portfolio := fun _ => Except.ok ⟨none, []⟩ })
      = some (Json.str "Traceback: secret internals") := rfl

/-- C6 (amended): for every unanticipated internal error caught at a
request-handler boundary, the caller-visible response pairs a generic
error label with the caught exception's own message text — a `details`
field on the `/portfolio` route, and the interpolated exception text in
the chat-relay replies — so internal exception details are included in
the response rather than withheld. -/
theorem internal_errors_surface_details (token : Option String) (u : Upstream)
    (msg : String) (htok : token_present token = true)
    (hacc : u.get_accounts = Except.error (UpstreamError.internalError msg)) :
    portfolio_json token u =
      RouteResponse.json (Json.obj
        [("error", Json.str "Internal Server Error"),
         ("details", Json.str msg)]) 500
    ∧ (∀ m : String, get_openrouter_response (OpenRouterOutcome.otherError m) =
        "⚠️ Ошибка при обращении к OpenRouter: " ++ m)
    ∧ (∀ url m : String,
        get_portfolio_from_agent url (AgentHttpOutcome.otherException m) =
          "⚠️ Неизвестная ошибка при запросе к Агенту: " ++ m) := by
  refine ⟨?_, fun m => rfl, fun url m => rfl⟩
  simp only [portfolio_json, fetch_tinkoff_portfolio, htok, hacc]
  rfl

/-- Witness for the amended C6: a concrete internal error surfacing its
message in the `details` field. -/
theorem internal_errors_surface_details_witness :
    portfolio_json (some "token")
        { get_accounts :=
            Except.error (UpstreamError.internalError "unexpected KeyError"),
          get_portfolio := fun _ => Except.ok ⟨none, []⟩ } =
      RouteResponse.json (Json.obj
        [("error", Json.str "Internal Server Error"),
         ("details", Json.str "unexpected KeyError")]) 500
    ∧ get_openrouter_response (OpenRouterOutcome.otherError "boom") =
        "⚠️ Ошибка при обращении к OpenRouter: " ++ "boom"
    ∧ get_portfolio_from_agent "http://agent"
        (AgentHttpOutcome.otherException "kaput") =
        "⚠️ Неизвестная ошибка при запросе к Агенту: " ++ "kaput" := by
  have h := internal_errors_surface_details (some "token")
    { get_accounts :=
        Except.error (UpstreamError.internalError "unexpected KeyError"),
      get_portfolio := fun _ => Except.ok ⟨none, []⟩ }
    "unexpected KeyError" rfl rfl
  exact ⟨h.1, h.2.1 "boom", h.2.2 "http://agent" "kaput"⟩

/-- Counterexample to C8: a POST body that `Update.de_json` cannot parse
raises out of the webhook handler (there is no `try/except` around
app.py:107 / main_bot.py:127), so Flask answers 500, not 200 — the route
does not return 200 for every request body. -/
theorem malformed_webhook_body_not_200 :
    flask_status (telegram_webhook
      { token := some "token",
        upstream := { get_accounts := Except.ok [],
                      get_portfolio := fun _ => Except.ok ⟨none, []⟩ },
        openrouter := fun _ => OpenRouterOutcome.success "ok" }
      WebhookBody.invalid) ≠ 200 := by
  intro h
  exact absurd h (by decide)

/-- C8 (amended): for every POST to the telegram-token webhook route whose
body parses as one update, the handler dispatches it to the command or
free-text handler and returns an empty body with HTTP 200; a body that
fails to parse raises an uncaught exception out of the handler, and the
route answers Flask's 500 instead of 200. -/
theorem webhook_parses_dispatches_200 (env : BotEnv) (u : Update) :
    telegram_webhook env (WebhookBody.valid u) =
      Except.ok { reply := dispatch_update env u, body := "", status := 200 }
    ∧ flask_status (telegram_webhook env (WebhookBody.valid u)) = 200
    ∧ flask_status (telegram_webhook env WebhookBody.invalid) = 500 :=
  ⟨rfl, rfl, rfl⟩

/-- C4: the `/portfolio` command handler of the in-process variant
(`app.py`) synchronously calls the data-source module's report function
and replies with its result: the rendered report when the fetch succeeds,
and the short diagnostic string when the fetch fails — the handler always
produces a reply and no exception path is left open, because the
spec-modelled `get_tinkoff_portfolio` returns the diagnostic instead of
raising. -/
theorem cmd_portfolio_replies (token : Option String) (u : Upstream) :
    cmd_portfolio token u = get_tinkoff_portfolio token u
    ∧ (∀ df : DataFrame, (fetch_tinkoff_portfolio token u).result = Except.ok df →
        cmd_portfolio token u = render_report df)
    ∧ (∀ e : FetchError, (fetch_tinkoff_portfolio token u).result = Except.error e →
        cmd_portfolio token u = short_diagnostic e) := by
  refine ⟨rfl, fun df hdf => ?_, fun e he => ?_⟩
  · show get_tinkoff_portfolio token u = _
    rw [get_tinkoff_portfolio, hdf]
  · show get_tinkoff_portfolio token u = _
    rw [get_tinkoff_portfolio, he]

/-- Witness for C4: with the token missing, the handler replies with the
configuration diagnostic rather than crashing. -/
theorem cmd_portfolio_replies_witness :
    cmd_portfolio none
        { get_accounts := Except.ok [⟨"acc-1"⟩],
          get_portfolio := fun _ => Except.ok ⟨none, []⟩ } =
      short_diagnostic (FetchError.configError "TINKOFF_API_TOKEN не задан") :=
  (cmd_portfolio_replies none
    { get_accounts := Except.ok [⟨"acc-1"⟩],
      get_portfolio := fun _ => Except.ok ⟨none, []⟩ }).2.2
    (FetchError.configError "TINKOFF_API_TOKEN не задан") rfl
